import Mathlib

/-!
Verification of the MCP `services-agent` server (src/server.py, src/server_v2.py).

The core under study is the hand-rolled protocol dispatcher
`MCPServer._handle_mcp_request` of `src/server_v2.py` (lines 93-157), its
registration decorator `MCPServer.tool` (lines 41-58), and the five tool
wrapper functions that both server variants register.

Modelling conventions (shallow embedding of the Python source):
* JSON documents / Python values that flow through the dispatcher are the
  inductive `Json` below.  Numeric literals are modelled as integers
  (non-integral numbers play no role in any property considered here).
  `Json.obj` models a Python dict produced by JSON parsing: its key list is
  duplicate-free, and lookups take the first (hence only) match.
* `request.get_json()` is modelled as `Option Json`: `none` when the inbound
  payload cannot be decoded as a structured document (the transport hands the
  dispatcher no data), `some d` otherwise.
* A Python expression that raises an uncaught exception is modelled with
  `Except String`: `Except.error msg` is an exception carrying `str(e) = msg`
  propagating out of the code under consideration, `Except.ok v` a normal
  return of `v`.
-/

/-- A JSON document / dynamically typed Python value. -/
inductive Json where
  | null
  | bool (b : Bool)
  | num (n : Int)
  | str (s : String)
  | arr (items : List Json)
  | obj (fields : List (String × Json))

/-- Python truthiness, negated: `not data` in `server_v2.py` line 95.
`None`, `False`, `0`, `""`, `[]` and the empty dict are falsy. -/
def pyFalsy : Json → Bool
  | .null => true
  | .bool b => !b
  | .num n => n == 0
  | .str s => s.isEmpty
  | .arr items => items.isEmpty
  | .obj fields => fields.isEmpty

/-- The Python type name of a value, as it appears in exception messages. -/
def pyTypeName : Json → String
  | .null => "NoneType"
  | .bool _ => "bool"
  | .num _ => "int"
  | .str _ => "str"
  | .arr _ => "list"
  | .obj _ => "dict"

/-- `d.get(key, dflt)` on a dict represented by its field list. -/
def mGet (fields : List (String × Json)) (key : String) (dflt : Json) : Json :=
  (List.lookup key fields).getD dflt

/-- `method == "s"` for a dynamically typed `method`: true exactly when the
value is the string `s` (a Python non-string never equals a string). -/
def jsonIsStr (j : Json) (s : String) : Bool :=
  match j with
  | .str t => t == s
  | _ => false

/-- `str(e)` for the `AttributeError` raised by `x.get(...)` when `x` is not a
dict (`server_v2.py` lines 98-100 and 126-127 reach `.get` on the decoded
payload / on `params` without checking their type). -/
def attrErrGet (j : Json) : String :=
  "AttributeError: " ++ pyTypeName j ++ " object has no attribute get"

/- Python `str(x)` as used by the f-strings at `server_v2.py` lines 133 and
156.  Faithful for the scalar values; for lists and dicts (which Python would
render with `repr`, single-quoting strings) the rendering of nested strings is
approximated without inner escaping, written with the single-quote character
as Python does. -/
mutual
def pyStr : Json → String
  | .null => "None"
  | .bool true => "True"
  | .bool false => "False"
  | .num n => toString n
  | .str s => s
  | .arr items => "[" ++ pyStrList items ++ "]"
  | .obj fields => "\x7b" ++ pyStrFields fields ++ "\x7d"

def pyRepr : Json → String
  | .null => "None"
  | .bool true => "True"
  | .bool false => "False"
  | .num n => toString n
  | .str s => "\x27" ++ s ++ "\x27"
  | .arr items => "[" ++ pyStrList items ++ "]"
  | .obj fields => "\x7b" ++ pyStrFields fields ++ "\x7d"

def pyStrList : List Json → String
  | [] => ""
  | [x] => pyRepr x
  | x :: xs => pyRepr x ++ ", " ++ pyStrList xs

def pyStrFields : List (String × Json) → String
  | [] => ""
  | [(k, v)] => "\x27" ++ k ++ "\x27: " ++ pyRepr v
  | (k, v) :: kvs => "\x27" ++ k ++ "\x27: " ++ pyRepr v ++ ", " ++ pyStrFields kvs
end

/-- One character of a JSON string serialised by `json.dumps` with
`ensure_ascii=False`: `"` and `\` are escaped, control characters use the
short escapes or `\u00XX`, everything else passes through. -/
def dumpChar (c : Char) : String :=
  if c = '"' then "\\\""
  else if c = '\\' then "\\\\"
  else if c = '\n' then "\\n"
  else if c = '\t' then "\\t"
  else if c = '\r' then "\\r"
  else if c.toNat < 16 then "\\u000" ++ String.singleton (Nat.digitChar c.toNat)
  else if c.toNat < 32 then "\\u001" ++ String.singleton (Nat.digitChar (c.toNat - 16))
  else String.singleton c

/-- A JSON string literal as serialised by `json.dumps`. -/
def dumpStr (s : String) : String :=
  "\"" ++ String.join (s.data.map dumpChar) ++ "\""

/- The serialisation `json.dumps(result, ensure_ascii=False, default=str)` at
`server_v2.py` line 142 (default separators).  The `default=str` fallback
never fires: every modelled value is JSON-serialisable. -/
mutual
def jsonDumps : Json → String
  | .null => "null"
  | .bool true => "true"
  | .bool false => "false"
  | .num n => toString n
  | .str s => dumpStr s
  | .arr items => "[" ++ jsonDumpsList items ++ "]"
  | .obj fields => "\x7b" ++ jsonDumpsFields fields ++ "\x7d"

def jsonDumpsList : List Json → String
  | [] => ""
  | [x] => jsonDumps x
  | x :: xs => jsonDumps x ++ ", " ++ jsonDumpsList xs

def jsonDumpsFields : List (String × Json) → String
  | [] => ""
  | [(k, v)] => dumpStr k ++ ": " ++ jsonDumps v
  | (k, v) :: kvs => dumpStr k ++ ": " ++ jsonDumps v ++ ", " ++ jsonDumpsFields kvs
end

/-- Python `s.strip()` (leading and trailing whitespace removed), as the list
of remaining characters.  Used by the validation branches of `src/server.py`
(lines 73 and 201): `len(s.strip())` is `(pyStrip s).length`. -/
def pyStrip (s : String) : List Char :=
  ((s.data.dropWhile Char.isWhitespace).reverse.dropWhile Char.isWhitespace).reverse

/-- One formal parameter of a Python handler function: its name and, when the
signature gives one, its default value. -/
structure Param where
  name : String
  dflt : Option Json

/-- A registered handler: the parameter list of the Python function and its
body, run on the keyword arguments bound in parameter order.  An
`Except.error` run models the body raising an exception with that `str(e)`. -/
structure Handler where
  params : List Param
  run : List (String × Json) → Except String Json

/-- The descriptor stored by `MCPServer.tool` (`server_v2.py` lines 44-53):
the dict `{"name": ..., "description": ..., "inputSchema": ..., "handler": ...}`. -/
structure ToolDesc where
  name : String
  description : String
  inputSchema : Json
  handler : Handler

/-- `self.tools`: a Python dict from tool name to descriptor, in insertion
order. -/
abbrev Registry := List (String × ToolDesc)

/-- Dict lookup `self.tools[k]` / membership support. -/
def dictGet (d : Registry) (k : String) : Option ToolDesc :=
  match d with
  | [] => none
  | (k0, v0) :: rest => if k0 = k then some v0 else dictGet rest k

/-- Dict assignment `self.tools[k] = v`: overwrites in place if the key is
present (Python dicts keep the original position), otherwise appends. -/
def dictSet (d : Registry) (k : String) (v : ToolDesc) : Registry :=
  match d with
  | [] => [(k, v)]
  | (k0, v0) :: rest => if k0 = k then (k, v) :: rest else (k0, v0) :: dictSet rest k v

/-- `self.tools.keys()` in insertion order. -/
def dictKeys (d : Registry) : List String := d.map (fun kv => kv.1)

/-- `self.tools.values()` in insertion order (`server_v2.py` line 114). -/
def dictValues (d : Registry) : List ToolDesc := d.map (fun kv => kv.2)

/-- The registration decorator `MCPServer.tool` (`server_v2.py` lines 41-58):
stores under `name` the descriptor whose `inputSchema` wraps the caller's
`parameters` dict as
`{"type": "object", "properties": parameters.get("properties", {}),
"required": parameters.get("required", [])}`.  No check of any kind is
performed on `name` or on the schema content. -/
def MCPServer.tool (tools : Registry) (name description : String)
    (parameters : List (String × Json)) (func : Handler) : Registry :=
  dictSet tools name
    { name := name
      description := description
      inputSchema := Json.obj
        [("type", Json.str "object"),
         ("properties", mGet parameters "properties" (Json.obj [])),
         ("required", mGet parameters "required" (Json.arr []))]
      handler := func }

/-- Keyword-argument binding for `handler(**arguments)` (`server_v2.py` line
137): an argument naming no parameter, or a parameter without default and
without argument, raises `TypeError`; otherwise each parameter gets its
argument or its default. -/
def bindKwargs (ps : List Param) (kw : List (String × Json)) :
    Except String (List (String × Json)) :=
  match kw.find? (fun a => ps.all (fun p => p.name != a.1)) with
  | some a => Except.error ("TypeError: got an unexpected keyword argument " ++ a.1)
  | none =>
    match ps.find? (fun p => p.dflt.isNone && (List.lookup p.name kw).isNone) with
    | some p => Except.error ("TypeError: missing a required argument: " ++ p.name)
    | none => Except.ok (ps.map (fun p => (p.name, (List.lookup p.name kw).getD (p.dflt.getD Json.null))))

/-- The whole invocation `self.tools[tool_name]["handler"](**arguments)`:
`**` of a non-dict raises `TypeError`, then binding, then the body. -/
def invokeTool (t : ToolDesc) (arguments : Json) : Except String Json :=
  match arguments with
  | .obj kw =>
    match bindKwargs t.handler.params kw with
    | .ok bound => t.handler.run bound
    | .error e => Except.error e
  | other => Except.error ("TypeError: argument after ** must be a mapping, not " ++ pyTypeName other)

/-- A success envelope `{"jsonrpc": "2.0", "id": ..., "result": ...}`. -/
def resultEnvelope (i r : Json) : Json :=
  Json.obj [("jsonrpc", Json.str "2.0"), ("id", i), ("result", r)]

/-- A failure envelope
`{"jsonrpc": "2.0", "id": ..., "error": {"code": ..., "message": ...}}`. -/
def errorEnvelope (i : Json) (code : Int) (message : String) : Json :=
  Json.obj [("jsonrpc", Json.str "2.0"), ("id", i),
    ("error", Json.obj [("code", Json.num code), ("message", Json.str message)])]

/-- The envelope of `server_v2.py` line 96 (the transport also sets HTTP
status 400 there; the status code is outside the envelope). -/
def parseErrorEnvelope : Json := errorEnvelope Json.null (-32700) "Parse error"

/-- The `initialize` result (`server_v2.py` lines 106-110). -/
def initializeResult (nm ver : String) : Json :=
  Json.obj
    [("protocolVersion", Json.str "2024-11-05"),
     ("serverInfo", Json.obj [("name", Json.str nm), ("version", Json.str ver)]),
     ("capabilities", Json.obj [("tools", Json.obj [("listChanged", Json.bool false)])])]

/-- The `tools/list` entries (`server_v2.py` lines 114-118): one
`{"name", "description", "inputSchema"}` dict per registry value, in order. -/
def toolsListing (tools : Registry) : List Json :=
  tools.map (fun kv => Json.obj
    [("name", Json.str kv.2.name),
     ("description", Json.str kv.2.description),
     ("inputSchema", kv.2.inputSchema)])

/-- The `tools/call` success result (`server_v2.py` lines 141-143):
`{"content": [{"type": "text", "text": json.dumps(result, ...)}]}`. -/
def contentResult (r : Json) : Json :=
  Json.obj [("content", Json.arr
    [Json.obj [("type", Json.str "text"), ("text", Json.str (jsonDumps r))]])]

/-- The dispatch on a decoded dict payload (`server_v2.py` lines 98-157).
`request_id`, `method` and `params` are the three `data.get` reads; the
method comparisons are Python `==` against string literals; in the
`tools/call` branch `params.get` raises on a non-dict `params` (line 126,
before the `try`), the membership test `tool_name not in self.tools` raises
on an unhashable `tool_name` (line 129, before the `try`), and everything
from line 137 on is inside the `try`, so handler failures become `-32603`
envelopes. -/
def dispatchObj (nm ver : String) (tools : Registry) (fs : List (String × Json)) :
    Except String Json :=
  let request_id := mGet fs "id" Json.null
  let method := mGet fs "method" (Json.str "")
  let params := mGet fs "params" (Json.obj [])
  if jsonIsStr method "initialize" then
    Except.ok (resultEnvelope request_id (initializeResult nm ver))
  else if jsonIsStr method "tools/list" then
    Except.ok (resultEnvelope request_id (Json.obj [("tools", Json.arr (toolsListing tools))]))
  else if jsonIsStr method "tools/call" then
    match params with
    | .obj pfs =>
      let tool_name := mGet pfs "name" Json.null
      let arguments := mGet pfs "arguments" (Json.obj [])
      match tool_name with
      | .arr _ => Except.error "TypeError: unhashable type: list"
      | .obj _ => Except.error "TypeError: unhashable type: dict"
      | .str s =>
        match dictGet tools s with
        | some t =>
          match invokeTool t arguments with
          | .ok r => Except.ok (resultEnvelope request_id (contentResult r))
          | .error e => Except.ok (errorEnvelope request_id (-32603) e)
        | none => Except.ok (errorEnvelope request_id (-32601) ("Tool not found: " ++ s))
      | other => Except.ok (errorEnvelope request_id (-32601) ("Tool not found: " ++ pyStr other))
    | other => Except.error (attrErrGet other)
  else
    Except.ok (errorEnvelope request_id (-32601) ("Method not found: " ++ pyStr method))

/-- `_handle_mcp_request` on a decoded payload: no payload, or a falsy one,
yields the Parse Error envelope (line 95-96); a truthy non-dict payload makes
the first `data.get` raise `AttributeError` (line 98); a truthy dict is
dispatched. -/
def handleMcpBody (nm ver : String) (tools : Registry) (payload : Option Json) :
    Except String Json :=
  match payload with
  | none => Except.ok parseErrorEnvelope
  | some data =>
    if pyFalsy data then Except.ok parseErrorEnvelope
    else
      match data with
      | .obj fs => dispatchObj nm ver tools fs
      | other => Except.error (attrErrGet other)

/-- `MCPServer._handle_mcp_request` in state-passing form: the method reads
`self.tools` and never assigns it, so the registry comes back unchanged next
to the outcome. -/
def handleMcpRequest (nm ver : String) (tools : Registry) (payload : Option Json) :
    Registry × Except String Json :=
  (tools, handleMcpBody nm ver tools payload)

/-!
The five collaborator modules (`tools.tool_health_advice`, `tools.tool_exercises`,
`tools.tool_pharmacy_locator`, `tools.tool_government_services`, `tools.tool_cv`)
are imported by both server files but are not part of this repository's source;
the spec (§1) treats them as external collaborators whose internal logic is out
of scope.  They are therefore uninterpreted functions, one field per module
entry point, typed after the shared annotations of the wrapper functions.
-/

/-- The uninterpreted collaborator entry points called by the five wrappers. -/
structure Collaborators where
  health_advice : String → Int → String → Json
  search_exercises : Option String → Option String → Option String → Option String → Int → Json
  pharmacy_execute : Json → Json
  government_execute : Json → Json
  cv_create : String → String → String → String → Json

/-- `server_v2.py` lines 203-204: forwards straight to the collaborator. -/
def serverV2_get_health_advice (C : Collaborators) (symptoms : String) (age : Int)
    (sex : String) : Json :=
  C.health_advice symptoms age sex

/-- `server.py` lines 48-83: rejects `symptoms` shorter than 3 characters once
stripped (or empty) with a `status: error` value, else forwards. -/
def serverPy_get_health_advice (C : Collaborators) (symptoms : String) (age : Int)
    (sex : String) : Json :=
  if symptoms = "" ∨ (pyStrip symptoms).length < 3 then
    Json.obj [("status", Json.str "error"),
      ("message", Json.str "Veuillez décrire vos symptômes (minimum 3 caractères). Exemple: \x27mal de tête\x27, \x27fièvre\x27")]
  else C.health_advice symptoms age sex

/-- `server_v2.py` lines 231-232. -/
def serverV2_search_exercises (C : Collaborators) (muscle type difficulty name : Option String)
    (max_results : Int) : Json :=
  C.search_exercises muscle type difficulty name max_results

/-- `server.py` lines 91-126: same forwarding, no validation. -/
def serverPy_search_exercises (C : Collaborators) (muscle type difficulty name : Option String)
    (max_results : Int) : Json :=
  C.search_exercises muscle type difficulty name max_results

/-- `server_v2.py` lines 254-255: builds the argument dict and forwards. -/
def serverV2_find_pharmacy (C : Collaborators) (city : String) (emergency : Bool) : Json :=
  C.pharmacy_execute (Json.obj [("city", Json.str city), ("emergency", Json.bool emergency)])

/-- `server.py` lines 134-164: identical body. -/
def serverPy_find_pharmacy (C : Collaborators) (city : String) (emergency : Bool) : Json :=
  C.pharmacy_execute (Json.obj [("city", Json.str city), ("emergency", Json.bool emergency)])

/-- `server_v2.py` lines 282-283: forwards straight to the collaborator. -/
def serverV2_get_government_service_info (C : Collaborators) (service_name : String) : Json :=
  C.government_execute (Json.obj [("service_name", Json.str service_name)])

/-- `server.py` lines 172-209: rejects `service_name` shorter than 2
characters once stripped (or empty) with a `status: error` value, else
forwards. -/
def serverPy_get_government_service_info (C : Collaborators) (service_name : String) : Json :=
  if service_name = "" ∨ (pyStrip service_name).length < 2 then
    Json.obj [("status", Json.str "error"),
      ("message", Json.str "Veuillez préciser le service recherché. Services disponibles: Passeport, CNIB, Permis de conduire, Acte de naissance, Certificat de nationalité, Casier judiciaire, Carte grise, Visa")]
  else C.government_execute (Json.obj [("service_name", Json.str service_name)])

/-- `server_v2.py` lines 310-311. -/
def serverV2_create_cv (C : Collaborators) (call_id email style color : String) : Json :=
  C.cv_create call_id email style color

/-- `server.py` lines 217-249: identical body. -/
def serverPy_create_cv (C : Collaborators) (call_id email style color : String) : Json :=
  C.cv_create call_id email style color

/-- The `parameters=` dict of the `get_health_advice` registration
(`server_v2.py` lines 194-201). -/
def healthAdviceParameters : List (String × Json) :=
  [("properties", Json.obj
     [("symptoms", Json.obj [("type", Json.str "string"), ("description", Json.str "Description des symptômes ressentis")]),
      ("age", Json.obj [("type", Json.str "integer"), ("description", Json.str "Âge de la personne (pour conseils adaptés)")]),
      ("sex", Json.obj [("type", Json.str "string"), ("description", Json.str "Sexe (\x27male\x27 ou \x27female\x27)")])]),
   ("required", Json.arr [Json.str "symptoms"])]

/-- The `parameters=` dict of the `search_exercises` registration
(`server_v2.py` lines 220-229). -/
def searchExercisesParameters : List (String × Json) :=
  [("properties", Json.obj
     [("muscle", Json.obj [("type", Json.str "string"), ("description", Json.str "Muscle ciblé (biceps, chest, legs, etc.)")]),
      ("type", Json.obj [("type", Json.str "string"), ("description", Json.str "Type d\x27exercice (cardio, strength, stretching)")]),
      ("difficulty", Json.obj [("type", Json.str "string"), ("description", Json.str "Niveau (beginner, intermediate, expert)")]),
      ("name", Json.obj [("type", Json.str "string"), ("description", Json.str "Nom d\x27exercice (recherche partielle)")]),
      ("max_results", Json.obj [("type", Json.str "integer"), ("description", Json.str "Nombre maximum de résultats (1-30)")])]),
   ("required", Json.arr [])]

/-- The `parameters=` dict of the `find_pharmacy` registration
(`server_v2.py` lines 246-252). -/
def findPharmacyParameters : List (String × Json) :=
  [("properties", Json.obj
     [("city", Json.obj [("type", Json.str "string"), ("description", Json.str "Ville du Burkina (défaut: Ouagadougou)")]),
      ("emergency", Json.obj [("type", Json.str "boolean"), ("description", Json.str "Si true, inclut aussi les numéros d\x27urgence")])]),
   ("required", Json.arr [])]

/-- The `parameters=` dict of the `get_government_service_info` registration
(`server_v2.py` lines 275-280). -/
def governmentServiceParameters : List (String × Json) :=
  [("properties", Json.obj
     [("service_name", Json.obj [("type", Json.str "string"), ("description", Json.str "Nom du service (ex: \x27Passeport\x27, \x27CNIB\x27, \x27Permis\x27)")])]),
   ("required", Json.arr [Json.str "service_name"])]

/-- The `parameters=` dict of the `create_cv` registration
(`server_v2.py` lines 300-308). -/
def createCvParameters : List (String × Json) :=
  [("properties", Json.obj
     [("call_id", Json.obj [("type", Json.str "string"), ("description", Json.str "ID de l\x27appel Voice Live en cours (fourni automatiquement)")]),
      ("email", Json.obj [("type", Json.str "string"), ("description", Json.str "Adresse email pour envoyer le CV")]),
      ("style", Json.obj [("type", Json.str "string"), ("description", Json.str "Style visuel (classique, moderne, minimaliste)")]),
      ("color", Json.obj [("type", Json.str "string"), ("description", Json.str "Couleur principale (bleu, vert, gris, rouge)")])]),
   ("required", Json.arr [Json.str "call_id", Json.str "email"])]

/-- Parameter list of `def get_health_advice(symptoms, age=30, sex="male")`. -/
def healthAdviceParams : List Param :=
  [⟨"symptoms", none⟩, ⟨"age", some (Json.num 30)⟩, ⟨"sex", some (Json.str "male")⟩]

/-- Parameter list of `def search_exercises(muscle=None, type=None,
difficulty=None, name=None, max_results=10)`. -/
def searchExercisesParams : List Param :=
  [⟨"muscle", some Json.null⟩, ⟨"type", some Json.null⟩, ⟨"difficulty", some Json.null⟩,
   ⟨"name", some Json.null⟩, ⟨"max_results", some (Json.num 10)⟩]

/-- Parameter list of `def find_pharmacy(city="Ouagadougou", emergency=False)`. -/
def findPharmacyParams : List Param :=
  [⟨"city", some (Json.str "Ouagadougou")⟩, ⟨"emergency", some (Json.bool false)⟩]

/-- Parameter list of `def get_government_service_info(service_name)`. -/
def governmentServiceParams : List Param := [⟨"service_name", none⟩]

/-- Parameter list of `def create_cv(call_id, email, style="moderne",
color="bleu")`. -/
def createCvParams : List Param :=
  [⟨"call_id", none⟩, ⟨"email", none⟩, ⟨"style", some (Json.str "moderne")⟩,
   ⟨"color", some (Json.str "bleu")⟩]

/-- The registry built by the five `@server.tool(...)` registrations of
`src/server_v2.py`, in source order, with the registered names, descriptions
and parameter schemas of the source.  The handler bodies wrap the external
collaborator modules, so they are passed in as parameters. -/
def servicesAgentRegistry (rH rS rP rG rC : List (String × Json) → Except String Json) :
    Registry :=
  MCPServer.tool (MCPServer.tool (MCPServer.tool (MCPServer.tool (MCPServer.tool []
    "get_health_advice"
    "Analyse des symptômes et conseils santé, remèdes et recommandations.\n\nSYMPTÔMES SUPPORTÉS:\n- Maux de tête, fièvre, toux\n- Ballonnement, douleur abdominale\n- Fatigue, insomnie\n- Douleurs musculaires\n\n⚠️ AVERTISSEMENT: Conseils généraux uniquement. Consulter un médecin pour tout problème sérieux."
    healthAdviceParameters ⟨healthAdviceParams, rH⟩)
    "search_exercises"
    "Recherche d\x27exercices de fitness avec filtres.\n\nMUSCLES: biceps, triceps, chest, back, legs, abdominals, calves, glutes\nTYPES: cardio, strength, stretching, plyometrics\nNIVEAUX: beginner, intermediate, expert\n\nEXEMPLES: muscle=\"biceps\", difficulty=\"beginner\" "
    searchExercisesParameters ⟨searchExercisesParams, rS⟩)
    "find_pharmacy"
    "Trouve les pharmacies de garde (24h/24) et numéros d\x27urgence au Burkina Faso.\n\nVILLES SUPPORTÉES: Ouagadougou, Bobo-Dioulasso, Koudougou, Ouahigouya, Banfora\n\nNUMÉROS D\x27URGENCE: Police: 17, Pompiers: 18, SAMU: 112"
    findPharmacyParameters ⟨findPharmacyParams, rP⟩)
    "get_government_service_info"
    "Informations sur les démarches administratives au Burkina Faso.\n\nSERVICES DISPONIBLES:\n- Passeport\n- Carte d\x27identité nationale (CNIB)\n- Permis de conduire\n- Acte de naissance\n- Certificat de nationalité\n- Casier judiciaire\n\nRetourne documents requis, procédure, coûts et délais."
    governmentServiceParameters ⟨governmentServiceParams, rG⟩)
    "create_cv"
    "Génère un CV professionnel Word à partir de la conversation Voice Live.\n\n⚠️ IMPORTANT: Cet outil nécessite que les informations aient été collectées pendant la conversation:\n- Nom complet, Email et téléphone\n- Expériences professionnelles\n- Formations et Compétences\n\nLe CV est généré depuis l\x27historique de conversation et envoyé par email."
    createCvParameters ⟨createCvParams, rC⟩

/-- Modelled from the spec: `src/server.py` registers its tools through the
`FastMCP` library decorator `@mcp.tool()`, which is not part of this
repository; per the spec (§9, decorator-style registration) each decorated
function is registered under its own name.  These are the five decorated
function names of `src/server.py`, in source order. -/
def serverPy_toolNames : List String :=
  ["get_health_advice", "search_exercises", "find_pharmacy",
   "get_government_service_info", "create_cv"]

/-- Test fixture for the spec scenario (§8): a tool `"echo"` whose handler
`def echo(text)` has one required parameter and returns it. -/
def echoHandler : Handler :=
  { params := [⟨"text", none⟩]
    run := fun bound => Except.ok ((List.lookup "text" bound).getD Json.null) }

/-- The `"echo"` registration schema: one required `text: string` property. -/
def echoParameters : List (String × Json) :=
  [("properties", Json.obj [("text", Json.obj [("type", Json.str "string")])]),
   ("required", Json.arr [Json.str "text"])]

/-- A registry holding only the `"echo"` fixture tool. -/
def echoRegistry : Registry :=
  MCPServer.tool [] "echo" "Echo tool" echoParameters echoHandler

/-- Test fixture: a registered handler whose body always raises an exception
with description `"boom"`. -/
def boomHandler : Handler :=
  { params := [], run := fun _ => Except.error "boom" }

/-- A registry holding only the always-raising fixture tool. -/
def boomRegistry : Registry :=
  MCPServer.tool [] "boom" "Always raises" [] boomHandler

/-- An interpretation of the collaborators that returns `null` everywhere;
used to instantiate theorems quantified over `Collaborators`. -/
def nullCollab : Collaborators :=
  { health_advice := fun _ _ _ => Json.null
    search_exercises := fun _ _ _ _ _ => Json.null
    pharmacy_execute := fun _ => Json.null
    government_execute := fun _ => Json.null
    cv_create := fun _ _ _ _ => Json.null }

/-- A handler run that ignores its arguments and returns `null`; used to
instantiate theorems quantified over the collaborator-backed handler bodies. -/
def nullRun : List (String × Json) → Except String Json := fun _ => Except.ok Json.null

/-- Does the envelope (a dict) carry the key `k`? -/
def hasKey (e : Json) (k : String) : Bool :=
  match e with
  | .obj fields => fields.any (fun kv => kv.1 == k)
  | _ => false

/-- The value of key `k` in the envelope, when present. -/
def getKey (e : Json) (k : String) : Option Json :=
  match e with
  | .obj fields => List.lookup k fields
  | _ => none

/-- The `id` the protocol requires the response to echo: the decoded
payload's `id` entry, and `null` when the payload could not be decoded (the
code also answers `null` for a falsy payload, which carries no `id`). -/
def expectedId : Option Json → Json
  | none => Json.null
  | some (.obj fs) => if fs.isEmpty then Json.null else mGet fs "id" Json.null
  | some _ => Json.null

/-- The payloads on which `_handle_mcp_request` completes without an uncaught
exception: anything undecodable or falsy, and any decoded dict, except a
`tools/call` whose `params` entry is present but not a dict (line 126 raises)
or whose `params["name"]` is a list or dict (the unhashable membership test
at line 129 raises). -/
def safePayload : Option Json → Bool
  | none => true
  | some d =>
    pyFalsy d ||
    (match d with
     | .obj fs =>
       !(jsonIsStr (mGet fs "method" (Json.str "")) "tools/call") ||
       (match mGet fs "params" (Json.obj []) with
        | .obj pfs =>
          (match mGet pfs "name" Json.null with
           | .arr _ => false
           | .obj _ => false
           | _ => true)
        | _ => false)
     | _ => false)

/-! ## Helper lemmas -/

theorem handle_fst (nm ver : String) (R : Registry) (payload : Option Json) :
    (handleMcpRequest nm ver R payload).1 = R := rfl

theorem handle_obj (nm ver : String) (R : Registry) (fs : List (String × Json))
    (h : pyFalsy (Json.obj fs) = false) :
    (handleMcpRequest nm ver R (some (Json.obj fs))).2 = dispatchObj nm ver R fs := by
  simp [handleMcpRequest, handleMcpBody, h]

theorem envFacts_result (i r : Json) :
    (hasKey (resultEnvelope i r) "result" != hasKey (resultEnvelope i r) "error") = true ∧
      getKey (resultEnvelope i r) "id" = some i :=
  ⟨rfl, rfl⟩

theorem envFacts_error (i : Json) (code : Int) (msg : String) :
    (hasKey (errorEnvelope i code msg) "result" != hasKey (errorEnvelope i code msg) "error") = true ∧
      getKey (errorEnvelope i code msg) "id" = some i :=
  ⟨rfl, rfl⟩

theorem dictGet_dictSet_self (R : Registry) (k : String) (v : ToolDesc) :
    dictGet (dictSet R k v) k = some v := by
  induction R with
  | nil => simp [dictSet, dictGet]
  | cons kv rest ih =>
    obtain ⟨k0, v0⟩ := kv
    by_cases h : k0 = k
    · simp [dictSet, dictGet, h]
    · simp [dictSet, dictGet, h, ih]

theorem mem_dictValues_of_dictGet (R : Registry) (k : String) (t : ToolDesc)
    (h : dictGet R k = some t) : t ∈ dictValues R := by
  induction R with
  | nil => simp [dictGet] at h
  | cons kv rest ih =>
    obtain ⟨k0, v0⟩ := kv
    by_cases hk : k0 = k
    · simp [dictGet, hk] at h
      simp [dictValues, h]
    · simp [dictGet, hk] at h
      simp [dictValues]
      exact Or.inr (by simpa [dictValues] using ih h)

/-- Shared core of C1 and C10: inside the `try` of the `tools/call` branch, a
failing invocation becomes a `-32603` envelope carrying `str(e)`. -/
theorem call_invoke_error (nm ver : String) (R : Registry)
    (fs pfs : List (String × Json)) (s msg : String) (t : ToolDesc)
    (hfalsy : pyFalsy (Json.obj fs) = false)
    (hm : mGet fs "method" (Json.str "") = Json.str "tools/call")
    (hp : mGet fs "params" (Json.obj []) = Json.obj pfs)
    (hn : mGet pfs "name" Json.null = Json.str s)
    (ht : dictGet R s = some t)
    (he : invokeTool t (mGet pfs "arguments" (Json.obj [])) = Except.error msg) :
    (handleMcpRequest nm ver R (some (Json.obj fs))).2 =
      Except.ok (errorEnvelope (mGet fs "id" Json.null) (-32603) msg) := by
  rw [handle_obj nm ver R fs hfalsy]
  simp only [dispatchObj, hm, hp, hn, ht, he, jsonIsStr]
  rfl

/-! ## Claims -/

/-- C1: for every `tools/call` request naming a registered tool, if the
tool's invocation raises (`invokeTool` yields `Except.error msg`, covering a
defect of the handler body as well as a `TypeError` of the call itself), the
dispatcher catches it and answers with an error envelope of code `-32603`
whose message is exactly the exception's textual description `msg`; the
outcome is `Except.ok`, i.e. the exception does not propagate out of
`_handle_mcp_request`, so a handler defect cannot crash the serving loop. -/
theorem claimC1_handler_failure_internal_error (nm ver : String) (R : Registry)
    (fs pfs : List (String × Json)) (s msg : String) (t : ToolDesc)
    (hfalsy : pyFalsy (Json.obj fs) = false)
    (hm : mGet fs "method" (Json.str "") = Json.str "tools/call")
    (hp : mGet fs "params" (Json.obj []) = Json.obj pfs)
    (hn : mGet pfs "name" Json.null = Json.str s)
    (ht : dictGet R s = some t)
    (he : invokeTool t (mGet pfs "arguments" (Json.obj [])) = Except.error msg) :
    (handleMcpRequest nm ver R (some (Json.obj fs))).2 =
      Except.ok (errorEnvelope (mGet fs "id" Json.null) (-32603) msg) :=
  call_invoke_error nm ver R fs pfs s msg t hfalsy hm hp hn ht he

/-- C1 at a concrete input: the always-raising fixture tool turns into a
`-32603` envelope with message `"boom"` and the request's id `2`. -/
theorem claimC1_handler_failure_internal_error_witness :
    (handleMcpRequest "services-agent" "2.0.0" boomRegistry (some (Json.obj
      [("id", Json.num 2), ("method", Json.str "tools/call"),
       ("params", Json.obj [("name", Json.str "boom")])]))).2 =
      Except.ok (errorEnvelope (Json.num 2) (-32603) "boom") :=
  claimC1_handler_failure_internal_error "services-agent" "2.0.0" boomRegistry
    [("id", Json.num 2), ("method", Json.str "tools/call"),
     ("params", Json.obj [("name", Json.str "boom")])]
    [("name", Json.str "boom")] "boom" "boom"
    { name := "boom", description := "Always raises",
      inputSchema := Json.obj [("type", Json.str "object"),
        ("properties", Json.obj []), ("required", Json.arr [])],
      handler := boomHandler }
    rfl rfl rfl rfl rfl rfl

/-- C4: a payload that cannot be decoded as a structured document (modelled
as `none`) makes the server answer the Parse Error envelope, code `-32700`
and id `null`, with the registry untouched and no method dispatched. -/
theorem claimC4_undecodable_payload_parse_error (nm ver : String) (R : Registry) :
    handleMcpRequest nm ver R none =
      (R, Except.ok (errorEnvelope Json.null (-32700) "Parse error")) := rfl

/-- C5: for every `tools/call` of a registered tool whose invocation returns
normally with value `r`, the response is a result envelope whose result is a
`content` array with a single item tagged `type "text"` whose `text` is the
`json.dumps` serialization of `r` (this is what `contentResult` builds). -/
theorem claimC5_success_wraps_serialized_text (nm ver : String) (R : Registry)
    (fs pfs : List (String × Json)) (s : String) (t : ToolDesc) (r : Json)
    (hfalsy : pyFalsy (Json.obj fs) = false)
    (hm : mGet fs "method" (Json.str "") = Json.str "tools/call")
    (hp : mGet fs "params" (Json.obj []) = Json.obj pfs)
    (hn : mGet pfs "name" Json.null = Json.str s)
    (ht : dictGet R s = some t)
    (he : invokeTool t (mGet pfs "arguments" (Json.obj [])) = Except.ok r) :
    (handleMcpRequest nm ver R (some (Json.obj fs))).2 =
      Except.ok (resultEnvelope (mGet fs "id" Json.null) (contentResult r)) := by
  rw [handle_obj nm ver R fs hfalsy]
  simp only [dispatchObj, hm, hp, hn, ht, he, jsonIsStr]
  rfl

/-- C5 at the spec's scenario: calling the `"echo"` tool with arguments
`{"text": "hi"}` returns the content array whose text is the serialization
of the handler's return value `"hi"`. -/
theorem claimC5_success_wraps_serialized_text_witness :
    (handleMcpRequest "services-agent" "2.0.0" echoRegistry (some (Json.obj
      [("id", Json.num 1), ("method", Json.str "tools/call"),
       ("params", Json.obj [("name", Json.str "echo"),
         ("arguments", Json.obj [("text", Json.str "hi")])])]))).2 =
      Except.ok (resultEnvelope (Json.num 1) (Json.obj [("content", Json.arr
        [Json.obj [("type", Json.str "text"), ("text", Json.str "\"hi\"")]])])) :=
  claimC5_success_wraps_serialized_text "services-agent" "2.0.0" echoRegistry
    [("id", Json.num 1), ("method", Json.str "tools/call"),
     ("params", Json.obj [("name", Json.str "echo"),
       ("arguments", Json.obj [("text", Json.str "hi")])])]
    [("name", Json.str "echo"), ("arguments", Json.obj [("text", Json.str "hi")])]
    "echo"
    { name := "echo", description := "Echo tool",
      inputSchema := Json.obj [("type", Json.str "object"),
        ("properties", Json.obj [("text", Json.obj [("type", Json.str "string")])]),
        ("required", Json.arr [Json.str "text"])],
      handler := echoHandler }
    (Json.str "hi")
    rfl rfl rfl rfl rfl rfl

/-- C3: (a) a `tools/call` whose `name` is a string not registered yields an
error envelope with code `-32601` and message `"Tool not found: "` followed
by the offending tool name, echoing the request's id; (b) a request whose
method is a string other than `initialize`, `tools/list` and `tools/call`
yields an error envelope with code `-32601` and message
`"Method not found: "` followed by the offending method name, echoing the
request's id. -/
theorem claimC3_not_found_errors (nm ver : String) (R : Registry)
    (fs : List (String × Json))
    (hfalsy : pyFalsy (Json.obj fs) = false) :
    (∀ (pfs : List (String × Json)) (s : String),
      mGet fs "method" (Json.str "") = Json.str "tools/call" →
      mGet fs "params" (Json.obj []) = Json.obj pfs →
      mGet pfs "name" Json.null = Json.str s →
      dictGet R s = none →
      (handleMcpRequest nm ver R (some (Json.obj fs))).2 =
        Except.ok (errorEnvelope (mGet fs "id" Json.null) (-32601) ("Tool not found: " ++ s))) ∧
    (∀ meth : String,
      mGet fs "method" (Json.str "") = Json.str meth →
      meth ≠ "initialize" → meth ≠ "tools/list" → meth ≠ "tools/call" →
      (handleMcpRequest nm ver R (some (Json.obj fs))).2 =
        Except.ok (errorEnvelope (mGet fs "id" Json.null) (-32601) ("Method not found: " ++ meth))) := by
  constructor
  · intro pfs s hm hp hn ht
    rw [handle_obj nm ver R fs hfalsy]
    simp only [dispatchObj, hm, hp, hn, ht, jsonIsStr]
    rfl
  · intro meth hm h1 h2 h3
    rw [handle_obj nm ver R fs hfalsy]
    simp [dispatchObj, hm, jsonIsStr, h1, h2, h3, pyStr]

/-- C3 at concrete inputs: the spec's two scenarios, `tools/call` of the
unregistered name `"missing"` (id 7) and the unsupported method `"foo/bar"`
(id absent, hence `null`), both on an empty registry. -/
theorem claimC3_not_found_errors_witness :
    (handleMcpRequest "services-agent" "2.0.0" [] (some (Json.obj
      [("id", Json.num 7), ("method", Json.str "tools/call"),
       ("params", Json.obj [("name", Json.str "missing")])]))).2 =
      Except.ok (errorEnvelope (Json.num 7) (-32601) ("Tool not found: " ++ "missing")) ∧
    (handleMcpRequest "services-agent" "2.0.0" [] (some (Json.obj
      [("method", Json.str "foo/bar")]))).2 =
      Except.ok (errorEnvelope Json.null (-32601) ("Method not found: " ++ "foo/bar")) :=
  ⟨(claimC3_not_found_errors "services-agent" "2.0.0" []
      [("id", Json.num 7), ("method", Json.str "tools/call"),
       ("params", Json.obj [("name", Json.str "missing")])] rfl).1
      [("name", Json.str "missing")] "missing" rfl rfl rfl rfl,
   (claimC3_not_found_errors "services-agent" "2.0.0" []
      [("method", Json.str "foo/bar")] rfl).2
      "foo/bar" rfl (by decide) (by decide) (by decide)⟩

theorem mem_toolsListing_of_dictGet (R : Registry) (k : String) (t : ToolDesc)
    (h : dictGet R k = some t) :
    Json.obj [("name", Json.str t.name), ("description", Json.str t.description),
      ("inputSchema", t.inputSchema)] ∈ toolsListing R := by
  have hv := mem_dictValues_of_dictGet R k t h
  rw [dictValues] at hv
  rcases List.mem_map.mp hv with ⟨kv, hkv, hEq⟩
  subst hEq
  exact List.mem_map_of_mem _ hkv

/-- C6: registering a tool with some name, description and parameter schema
makes a subsequent `tools/list` answer a result envelope whose `tools` array
contains the entry with that name, that description, and the input schema
built from exactly the given `properties` and `required` of the registration
call. -/
theorem claimC6_registered_tool_listed (nm ver : String) (R : Registry) (i : Json)
    (n d : String) (parameters : List (String × Json)) (f : Handler) :
    ∃ entries,
      (handleMcpRequest nm ver (MCPServer.tool R n d parameters f)
        (some (Json.obj [("id", i), ("method", Json.str "tools/list")]))).2 =
        Except.ok (resultEnvelope i (Json.obj [("tools", Json.arr entries)])) ∧
      Json.obj [("name", Json.str n), ("description", Json.str d),
        ("inputSchema", Json.obj
          [("type", Json.str "object"),
           ("properties", mGet parameters "properties" (Json.obj [])),
           ("required", mGet parameters "required" (Json.arr []))])] ∈ entries := by
  refine ⟨toolsListing (MCPServer.tool R n d parameters f), rfl, ?_⟩
  exact mem_toolsListing_of_dictGet _ n _ (dictGet_dictSet_self R n _)

/-- C7: handling `initialize` or `tools/list` leaves the registry untouched
(`_handle_mcp_request` never writes `self.tools`), repeating the identical
request against the resulting state returns the identical response, and the
response is a result envelope echoing the request's id. -/
theorem claimC7_read_methods_idempotent (nm ver : String) (R : Registry)
    (fs : List (String × Json))
    (hm : mGet fs "method" (Json.str "") = Json.str "initialize" ∨
          mGet fs "method" (Json.str "") = Json.str "tools/list") :
    (handleMcpRequest nm ver R (some (Json.obj fs))).1 = R ∧
    handleMcpRequest nm ver (handleMcpRequest nm ver R (some (Json.obj fs))).1
        (some (Json.obj fs)) = handleMcpRequest nm ver R (some (Json.obj fs)) ∧
    ∃ res, (handleMcpRequest nm ver R (some (Json.obj fs))).2 =
      Except.ok (resultEnvelope (mGet fs "id" Json.null) res) := by
  refine ⟨rfl, rfl, ?_⟩
  have hfalsy : pyFalsy (Json.obj fs) = false := by
    cases fs with
    | nil => rcases hm with hm | hm <;> simp [mGet, List.lookup] at hm
    | cons a l => rfl
  rw [handle_obj nm ver R fs hfalsy]
  rcases hm with hm | hm
  · exact ⟨_, by simp only [dispatchObj, hm, jsonIsStr]; rfl⟩
  · exact ⟨_, by simp only [dispatchObj, hm, jsonIsStr]; rfl⟩

/-- C7 at a concrete input: an `initialize` request (id 9) against the echo
registry. -/
theorem claimC7_read_methods_idempotent_witness :
    (handleMcpRequest "services-agent" "2.0.0" echoRegistry (some (Json.obj
      [("id", Json.num 9), ("method", Json.str "initialize")]))).1 = echoRegistry ∧
    handleMcpRequest "services-agent" "2.0.0"
        (handleMcpRequest "services-agent" "2.0.0" echoRegistry (some (Json.obj
          [("id", Json.num 9), ("method", Json.str "initialize")]))).1
        (some (Json.obj [("id", Json.num 9), ("method", Json.str "initialize")])) =
      handleMcpRequest "services-agent" "2.0.0" echoRegistry (some (Json.obj
        [("id", Json.num 9), ("method", Json.str "initialize")])) ∧
    ∃ res, (handleMcpRequest "services-agent" "2.0.0" echoRegistry (some (Json.obj
      [("id", Json.num 9), ("method", Json.str "initialize")]))).2 =
      Except.ok (resultEnvelope (Json.num 9) res) :=
  claimC7_read_methods_idempotent "services-agent" "2.0.0" echoRegistry
    [("id", Json.num 9), ("method", Json.str "initialize")] (Or.inl rfl)

/-- C8 fails on the code: `MCPServer.tool` performs no check at all, so a
registration with the empty name stores a descriptor under `""` all the
same (`self.tools[name] = {...}` runs unconditionally). -/
theorem claimC8_counterexample_empty_name_stored :
    ("" : String).length = 0 ∧
      (dictGet (MCPServer.tool [] "" "desc" [] echoHandler) "").isSome = true :=
  ⟨rfl, rfl⟩

/-- C8 amended: the registration operation stores (or overwrites) a
descriptor under the given name unconditionally — the empty name included —
and performs no validation whatsoever: the stored descriptor is exactly the
dict built from the arguments, with the `properties` and `required` of the
passed schema taken as they are. -/
theorem claimC8_registration_stores_unconditionally (R : Registry) (n d : String)
    (parameters : List (String × Json)) (f : Handler) :
    dictGet (MCPServer.tool R n d parameters f) n = some
      { name := n, description := d,
        inputSchema := Json.obj [("type", Json.str "object"),
          ("properties", mGet parameters "properties" (Json.obj [])),
          ("required", mGet parameters "required" (Json.arr []))],
        handler := f } :=
  dictGet_dictSet_self R n _

theorem bindKwargs_error_of_unbindable (ps : List Param) (kw : List (String × Json))
    (h : (∃ a ∈ kw, ∀ p ∈ ps, p.name ≠ a.1) ∨
         (∃ p ∈ ps, p.dflt = none ∧ List.lookup p.name kw = none)) :
    ∃ msg, bindKwargs ps kw = Except.error msg := by
  rcases h1 : kw.find? (fun a => ps.all (fun p => p.name != a.1)) with _ | a
  · rcases h2 : ps.find? (fun p => p.dflt.isNone && (List.lookup p.name kw).isNone) with _ | p
    · exfalso
      rcases h with ⟨a, ha, hall⟩ | ⟨p, hp, hd, hl⟩
      · refine List.find?_eq_none.mp h1 a ha ?_
        rw [List.all_eq_true]
        intro q hq
        exact bne_iff_ne.mpr (hall q hq)
      · refine List.find?_eq_none.mp h2 p hp ?_
        simp [hd, hl]
    · exact ⟨"TypeError: missing a required argument: " ++ p.name,
        by simp only [bindKwargs, h1, h2]⟩
  · exact ⟨"TypeError: got an unexpected keyword argument " ++ a.1,
      by simp only [bindKwargs, h1]⟩

/-- C10: a `tools/call` of a registered tool whose arguments dict does not
bind to the handler's parameter list — some argument names no parameter, or
some parameter without default gets no argument — is answered with an
Internal Error envelope of code `-32603` (the `TypeError` of the call is
caught by the same `except` as a handler defect), not with any
handler-produced value. -/
theorem claimC10_unbindable_arguments_internal_error (nm ver : String) (R : Registry)
    (fs pfs kw : List (String × Json)) (s : String) (t : ToolDesc)
    (hfalsy : pyFalsy (Json.obj fs) = false)
    (hm : mGet fs "method" (Json.str "") = Json.str "tools/call")
    (hp : mGet fs "params" (Json.obj []) = Json.obj pfs)
    (hn : mGet pfs "name" Json.null = Json.str s)
    (ht : dictGet R s = some t)
    (ha : mGet pfs "arguments" (Json.obj []) = Json.obj kw)
    (hbad : (∃ a ∈ kw, ∀ p ∈ t.handler.params, p.name ≠ a.1) ∨
            (∃ p ∈ t.handler.params, p.dflt = none ∧ List.lookup p.name kw = none)) :
    ∃ msg, (handleMcpRequest nm ver R (some (Json.obj fs))).2 =
      Except.ok (errorEnvelope (mGet fs "id" Json.null) (-32603) msg) := by
  obtain ⟨msg, hmsg⟩ := bindKwargs_error_of_unbindable t.handler.params kw hbad
  refine ⟨msg, call_invoke_error nm ver R fs pfs s msg t hfalsy hm hp hn ht ?_⟩
  rw [ha]
  simp only [invokeTool, hmsg]

/-- C10 at a concrete input: calling `"echo"` (whose only parameter is the
required `text`) with arguments `{"bogus": 1}` yields a `-32603` envelope
with the request's id `3`. -/
theorem claimC10_unbindable_arguments_internal_error_witness :
    ∃ msg, (handleMcpRequest "services-agent" "2.0.0" echoRegistry (some (Json.obj
      [("id", Json.num 3), ("method", Json.str "tools/call"),
       ("params", Json.obj [("name", Json.str "echo"),
         ("arguments", Json.obj [("bogus", Json.num 1)])])]))).2 =
      Except.ok (errorEnvelope (Json.num 3) (-32603) msg) :=
  claimC10_unbindable_arguments_internal_error "services-agent" "2.0.0" echoRegistry
    [("id", Json.num 3), ("method", Json.str "tools/call"),
     ("params", Json.obj [("name", Json.str "echo"),
       ("arguments", Json.obj [("bogus", Json.num 1)])])]
    [("name", Json.str "echo"), ("arguments", Json.obj [("bogus", Json.num 1)])]
    [("bogus", Json.num 1)] "echo"
    { name := "echo", description := "Echo tool",
      inputSchema := Json.obj [("type", Json.str "object"),
        ("properties", Json.obj [("text", Json.obj [("type", Json.str "string")])]),
        ("required", Json.arr [Json.str "text"])],
      handler := echoHandler }
    rfl rfl rfl rfl rfl rfl
    (Or.inl ⟨("bogus", Json.num 1), List.mem_singleton.mpr rfl, by decide⟩)

/-- C9 fails on the code: with the collaborator modules interpreted as the
same uninterpreted functions in both files (here: returning `null`
everywhere), `server.py`'s `get_health_advice` at `symptoms = ""` returns
its own validation-error value (`server.py` lines 73-77) while
`server_v2.py`'s forwards to the collaborator and returns `null`, so the two
registered handlers do not compute the same result for every argument
assignment. -/
theorem claimC9_counterexample_validation_differs :
    ¬ (∀ (C : Collaborators) (symptoms : String) (age : Int) (sex : String),
        serverPy_get_health_advice C symptoms age sex =
          serverV2_get_health_advice C symptoms age sex) := by
  intro h
  have h0 := h nullCollab "" 30 "male"
  simp [serverPy_get_health_advice, serverV2_get_health_advice, nullCollab] at h0

/-- C9 amended: the two variants register the same five tool names, and with
the collaborator modules as the same uninterpreted functions the paired
handlers compute the same result on every argument assignment for
`search_exercises`, `find_pharmacy` and `create_cv`; for `get_health_advice`
and `get_government_service_info` they agree on every argument assignment
that passes `server.py`'s length validation (stripped `symptoms` of at least
3 characters, stripped `service_name` of at least 2 characters) — on
arguments failing it, `server.py` short-circuits to a `status: error` value
that `server_v2.py` does not produce. -/
theorem claimC9_variants_agree_modulo_validation (C : Collaborators)
    (rH rS rP rG rC : List (String × Json) → Except String Json) :
    dictKeys (servicesAgentRegistry rH rS rP rG rC) = serverPy_toolNames ∧
    (∀ muscle type difficulty name max_results,
      serverPy_search_exercises C muscle type difficulty name max_results =
        serverV2_search_exercises C muscle type difficulty name max_results) ∧
    (∀ city emergency, serverPy_find_pharmacy C city emergency =
        serverV2_find_pharmacy C city emergency) ∧
    (∀ call_id email style color, serverPy_create_cv C call_id email style color =
        serverV2_create_cv C call_id email style color) ∧
    (∀ symptoms age sex, ¬(symptoms = "" ∨ (pyStrip symptoms).length < 3) →
      serverPy_get_health_advice C symptoms age sex =
        serverV2_get_health_advice C symptoms age sex) ∧
    (∀ service_name, ¬(service_name = "" ∨ (pyStrip service_name).length < 2) →
      serverPy_get_government_service_info C service_name =
        serverV2_get_government_service_info C service_name) := by
  refine ⟨rfl, fun _ _ _ _ _ => rfl, fun _ _ => rfl, fun _ _ _ _ => rfl, ?_, ?_⟩
  · intro symptoms age sex hv
    simp [serverPy_get_health_advice, serverV2_get_health_advice, hv]
  · intro service_name hv
    simp [serverPy_get_government_service_info, serverV2_get_government_service_info, hv]

/-- C9 amended, at concrete inputs passing the validations: the paired
handlers of the two validated tools agree at `symptoms = "mal de tête"` and
`service_name = "Passeport"`. -/
theorem claimC9_variants_agree_modulo_validation_witness :
    serverPy_get_health_advice nullCollab "mal de tête" 30 "male" =
      serverV2_get_health_advice nullCollab "mal de tête" 30 "male" ∧
    serverPy_get_government_service_info nullCollab "Passeport" =
      serverV2_get_government_service_info nullCollab "Passeport" :=
  ⟨(claimC9_variants_agree_modulo_validation nullCollab nullRun nullRun nullRun nullRun
      nullRun).2.2.2.2.1 "mal de tête" 30 "male" (by decide),
   (claimC9_variants_agree_modulo_validation nullCollab nullRun nullRun nullRun nullRun
      nullRun).2.2.2.2.2 "Passeport" (by decide)⟩

/-- C2 fails on the code: the decoded payload `5` is truthy and not a dict,
so `data.get("id")` at `server_v2.py` line 98 raises `AttributeError`, which
nothing catches — for this inbound request the dispatcher produces no
response envelope at all, the exception escapes to the transport. -/
theorem claimC2_counterexample_non_dict_payload_raises :
    (handleMcpRequest "services-agent" "2.0.0" [] (some (Json.num 5))).2 =
      Except.error "AttributeError: int object has no attribute get" := rfl

theorem dispatchObj_wellformed (nm ver : String) (R : Registry) (fs : List (String × Json))
    (hsafe : (!(jsonIsStr (mGet fs "method" (Json.str "")) "tools/call") ||
      (match mGet fs "params" (Json.obj []) with
       | .obj pfs =>
         (match mGet pfs "name" Json.null with
          | .arr _ => false
          | .obj _ => false
          | _ => true)
       | _ => false)) = true) :
    ∃ e, dispatchObj nm ver R fs = Except.ok e ∧
      (hasKey e "result" != hasKey e "error") = true ∧
      getKey e "id" = some (mGet fs "id" Json.null) := by
  cases hm : mGet fs "method" (Json.str "") with
  | str ms =>
    by_cases h1 : ms = "initialize"
    · subst h1
      exact ⟨resultEnvelope (mGet fs "id" Json.null) (initializeResult nm ver),
        by simp [dispatchObj, hm, jsonIsStr], (envFacts_result _ _).1, (envFacts_result _ _).2⟩
    · by_cases h2 : ms = "tools/list"
      · subst h2
        exact ⟨resultEnvelope (mGet fs "id" Json.null)
            (Json.obj [("tools", Json.arr (toolsListing R))]),
          by simp [dispatchObj, hm, jsonIsStr], (envFacts_result _ _).1, (envFacts_result _ _).2⟩
      · by_cases h3 : ms = "tools/call"
        · subst h3
          rw [hm] at hsafe
          simp only [jsonIsStr] at hsafe
          cases hp : mGet fs "params" (Json.obj []) with
          | obj pfs =>
            rw [hp] at hsafe
            cases hn : mGet pfs "name" Json.null with
            | str s =>
              cases ht : dictGet R s with
              | some t =>
                cases he : invokeTool t (mGet pfs "arguments" (Json.obj [])) with
                | ok r =>
                  exact ⟨resultEnvelope (mGet fs "id" Json.null) (contentResult r),
                    by simp [dispatchObj, hm, hp, hn, ht, he, jsonIsStr],
                    (envFacts_result _ _).1, (envFacts_result _ _).2⟩
                | error e =>
                  exact ⟨errorEnvelope (mGet fs "id" Json.null) (-32603) e,
                    by simp [dispatchObj, hm, hp, hn, ht, he, jsonIsStr],
                    (envFacts_error _ _ _).1, (envFacts_error _ _ _).2⟩
              | none =>
                exact ⟨errorEnvelope (mGet fs "id" Json.null) (-32601) ("Tool not found: " ++ s),
                  by simp [dispatchObj, hm, hp, hn, ht, jsonIsStr],
                  (envFacts_error _ _ _).1, (envFacts_error _ _ _).2⟩
            | null =>
              exact ⟨errorEnvelope (mGet fs "id" Json.null) (-32601)
                  ("Tool not found: " ++ pyStr Json.null),
                by simp [dispatchObj, hm, hp, hn, jsonIsStr],
                (envFacts_error _ _ _).1, (envFacts_error _ _ _).2⟩
            | bool b =>
              exact ⟨errorEnvelope (mGet fs "id" Json.null) (-32601)
                  ("Tool not found: " ++ pyStr (Json.bool b)),
                by simp [dispatchObj, hm, hp, hn, jsonIsStr],
                (envFacts_error _ _ _).1, (envFacts_error _ _ _).2⟩
            | num n =>
              exact ⟨errorEnvelope (mGet fs "id" Json.null) (-32601)
                  ("Tool not found: " ++ pyStr (Json.num n)),
                by simp [dispatchObj, hm, hp, hn, jsonIsStr],
                (envFacts_error _ _ _).1, (envFacts_error _ _ _).2⟩
            | arr xs => simp [hn] at hsafe
            | obj ofs => simp [hn] at hsafe
          | null => rw [hp] at hsafe; simp at hsafe
          | bool b => rw [hp] at hsafe; simp at hsafe
          | num n => rw [hp] at hsafe; simp at hsafe
          | str s => rw [hp] at hsafe; simp at hsafe
          | arr xs => rw [hp] at hsafe; simp at hsafe
        · exact ⟨errorEnvelope (mGet fs "id" Json.null) (-32601) ("Method not found: " ++ ms),
            by simp [dispatchObj, hm, jsonIsStr, h1, h2, h3, pyStr],
            (envFacts_error _ _ _).1, (envFacts_error _ _ _).2⟩
  | null =>
    exact ⟨errorEnvelope (mGet fs "id" Json.null) (-32601)
        ("Method not found: " ++ pyStr Json.null),
      by simp [dispatchObj, hm, jsonIsStr], (envFacts_error _ _ _).1, (envFacts_error _ _ _).2⟩
  | bool b =>
    exact ⟨errorEnvelope (mGet fs "id" Json.null) (-32601)
        ("Method not found: " ++ pyStr (Json.bool b)),
      by simp [dispatchObj, hm, jsonIsStr], (envFacts_error _ _ _).1, (envFacts_error _ _ _).2⟩
  | num n =>
    exact ⟨errorEnvelope (mGet fs "id" Json.null) (-32601)
        ("Method not found: " ++ pyStr (Json.num n)),
      by simp [dispatchObj, hm, jsonIsStr], (envFacts_error _ _ _).1, (envFacts_error _ _ _).2⟩
  | arr xs =>
    exact ⟨errorEnvelope (mGet fs "id" Json.null) (-32601)
        ("Method not found: " ++ pyStr (Json.arr xs)),
      by simp [dispatchObj, hm, jsonIsStr], (envFacts_error _ _ _).1, (envFacts_error _ _ _).2⟩
  | obj ofs =>
    exact ⟨errorEnvelope (mGet fs "id" Json.null) (-32601)
        ("Method not found: " ++ pyStr (Json.obj ofs)),
      by simp [dispatchObj, hm, jsonIsStr], (envFacts_error _ _ _).1, (envFacts_error _ _ _).2⟩

/-- C2 amended: for every inbound request whose payload is undecodable,
falsy, or a dict — except a `tools/call` whose `params` entry is a truthy or
falsy non-dict or whose `params["name"]` is a list or dict, on which the
dispatcher raises `AttributeError`/`TypeError` and produces no envelope (see
the counterexample) — the dispatcher produces exactly one response envelope,
that envelope carries exactly one of the `result` and `error` keys, and its
`id` equals the inbound request's id (`null` when the payload could not be
decoded). -/
theorem claimC2_one_wellformed_envelope_on_safe_payloads (nm ver : String) (R : Registry)
    (payload : Option Json) (h : safePayload payload = true) :
    ∃ e, (handleMcpRequest nm ver R payload).2 = Except.ok e ∧
      (hasKey e "result" != hasKey e "error") = true ∧
      getKey e "id" = some (expectedId payload) := by
  match payload with
  | none => exact ⟨parseErrorEnvelope, rfl, rfl, rfl⟩
  | some d =>
    by_cases hf : pyFalsy d = true
    · refine ⟨parseErrorEnvelope, ?_, rfl, ?_⟩
      · simp [handleMcpRequest, handleMcpBody, hf]
      · cases d with
        | obj fs =>
          have hEmp : fs.isEmpty = true := by simpa [pyFalsy] using hf
          have : expectedId (some (Json.obj fs)) = Json.null := by simp [expectedId, hEmp]
          rw [this]
          exact rfl
        | null => rfl
        | bool b => rfl
        | num n => rfl
        | str s => rfl
        | arr xs => rfl
    · cases d with
      | obj fs =>
        have hf' : pyFalsy (Json.obj fs) = false := by simpa using hf
        rw [handle_obj nm ver R fs hf']
        have hsafe : (!(jsonIsStr (mGet fs "method" (Json.str "")) "tools/call") ||
            (match mGet fs "params" (Json.obj []) with
             | .obj pfs =>
               (match mGet pfs "name" Json.null with
                | .arr _ => false
                | .obj _ => false
                | _ => true)
             | _ => false)) = true := by
          simpa [safePayload, hf'] using h
        obtain ⟨e, he, hx, hid⟩ := dispatchObj_wellformed nm ver R fs hsafe
        refine ⟨e, he, hx, ?_⟩
        rw [hid]
        have hEmp : fs.isEmpty = false := by simpa [pyFalsy] using hf'
        simp [expectedId, hEmp]
      | null => exact absurd rfl hf
      | bool b => simp [safePayload] at h; exact absurd h hf
      | num n => simp [safePayload] at h; exact absurd h hf
      | str s => simp [safePayload] at h; exact absurd h hf
      | arr xs => simp [safePayload] at h; exact absurd h hf

/-- C2 amended, at a concrete safe input: a `tools/list` request with id 4
against the echo registry is answered by one well-formed envelope echoing
id 4. -/
theorem claimC2_one_wellformed_envelope_witness :
    safePayload (some (Json.obj [("id", Json.num 4), ("method", Json.str "tools/list")])) = true ∧
    ∃ e, (handleMcpRequest "services-agent" "2.0.0" echoRegistry
        (some (Json.obj [("id", Json.num 4), ("method", Json.str "tools/list")]))).2 =
        Except.ok e ∧
      (hasKey e "result" != hasKey e "error") = true ∧
      getKey e "id" = some (expectedId
        (some (Json.obj [("id", Json.num 4), ("method", Json.str "tools/list")]))) :=
  ⟨rfl, claimC2_one_wellformed_envelope_on_safe_payloads "services-agent" "2.0.0"
    echoRegistry (some (Json.obj [("id", Json.num 4), ("method", Json.str "tools/list")])) rfl⟩
